import Mathlib

/-!
Verification of the Scheduled Delivery Engine of the UPLOADERBOT repository.

The Python sources are shallowly embedded: each relevant handler becomes an
executable Lean function over explicit state, wall-clock values are whole
minutes (`Int`), a timezone is its UTC offset in minutes, and the external
environment (Telegram clients, filesystem, image codec) enters through
explicit oracle parameters that range over the outcomes the code branches on.
-/

namespace UploaderBot

/-! ## Time model

`datetime.now(tz)` / `astimezone` arithmetic is modelled with instants in
whole minutes.  A timezone is its UTC offset in minutes (`pytz` localisation
of a wall-clock value subtracts the offset; reading a UTC instant in a zone
adds it). -/

structure Timezone where
  offsetMin : Int
deriving DecidableEq, Repr

/-- Convert a UTC instant to the wall-clock value in zone `tz`
(`utc.astimezone(tz)`). -/
def toLocal (tz : Timezone) (utc : Int) : Int := utc + tz.offsetMin

/-- Convert a wall-clock value in zone `tz` to the UTC instant
(`tz.localize(local).astimezone(UTC)`). -/
def toUTC (tz : Timezone) (localT : Int) : Int := localT - tz.offsetMin

/-! ## Scheduler state

`handle_schedule_time` inserts a row into the `posts` table
(`INSERT INTO posts (channel_id, post_type, content, caption, scheduled_time)`)
and arms a job on `scheduler_manager.scheduler` (`add_job(..., id="post_<id>",
run_date=target_date_local)`).  `context.application.job_queue` is a distinct
scheduler object; `handle_confirm_cancel` calls `remove_job` on it (swallowing
any exception).  Both collections of armed jobs are carried in the state so
that the cancel path can be checked against the arm path. -/

/-- A row of the `posts` table.  The schema has no state column, so the
record carries none; `scheduledTime` is the minute value written into the
`scheduled_time` column by `target_date_local.strftime(...)`. -/
structure StoredPost where
  id : Nat
  channelId : Nat
  scheduledTime : Int
deriving DecidableEq, Repr

/-- A job armed on a scheduler: the numeric part of the `post_<id>` job id,
and the `run_date` passed to `add_job`. -/
structure ArmedJob where
  jobId : Nat
  runDate : Int
deriving DecidableEq, Repr

structure SchedulerState where
  posts : List StoredPost
  schedJobs : List ArmedJob
  queueJobs : List ArmedJob
  nextId : Nat
deriving DecidableEq, Repr

inductive ScheduleError
  | invalidTime
  | pastTime
deriving DecidableEq, Repr

inductive ScheduleDay
  | today
  | tomorrow
deriving DecidableEq, Repr

/-- `local_now.replace(hour=hour, minute=minute, second=0, microsecond=0)`
plus one day when the user picked tomorrow: keep the local day of `localNow`
and overwrite the time of day. -/
def targetDateLocal (localNow : Int) (hour minute : Nat) (day : ScheduleDay) : Int :=
  localNow - localNow % 1440 + 60 * hour + minute +
    (if day = .tomorrow then 1440 else 0)

/-- One iteration of the `for post in posts` loop of `handle_schedule_time`:
insert the row (`cursor.lastrowid` is modelled by `nextId`) and arm the job
on `scheduler_manager.scheduler` with `run_date = target_date_local`. -/
def armOne (channelId : Nat) (target : Int) (st : SchedulerState) : SchedulerState :=
  { st with
    posts := st.posts ++ [⟨st.nextId, channelId, target⟩]
    schedJobs := st.schedJobs ++ [⟨st.nextId, target⟩]
    nextId := st.nextId + 1 }

def armPosts (channelId : Nat) (target : Int) : Nat → SchedulerState → SchedulerState
  | 0, st => st
  | n + 1, st => armPosts channelId target n (armOne channelId target st)

/-- Embedding of `handle_schedule_time` (callback_handlers.py:903-1063) after
time parsing: validate the hour and minute ranges, compute
`target_date_local` from `datetime.now(tz)`, reject a target that is not
strictly in the future, and otherwise insert and arm every pending post.
The persisted `scheduled_time` is `target_date_local` itself — the code calls
`strftime` on the local value without any UTC conversion. -/
def handle_schedule_time (st : SchedulerState) (pendingCount channelId : Nat)
    (hour minute : Nat) (day : ScheduleDay) (tz : Timezone) (nowUTC : Int) :
    SchedulerState × Option ScheduleError :=
  if hour ≤ 23 ∧ minute ≤ 59 then
    if targetDateLocal (toLocal tz nowUTC) hour minute day ≤ toLocal tz nowUTC then
      (st, some .pastTime)
    else
      (armPosts channelId (targetDateLocal (toLocal tz nowUTC) hour minute day)
        pendingCount st, none)
  else
    (st, some .invalidTime)

/-- Embedding of the read-back in `planifier_post`
(callback_handlers.py:1855-1862): the stored `scheduled_time` string is
parsed and reinterpreted as UTC (`replace(tzinfo=pytz.UTC)`) then converted
to the zone of the user (`astimezone(local_tz)`). -/
def planifier_post_display (tz : Timezone) (stored : Int) : Int :=
  toLocal tz stored

/-- Embedding of `handle_confirm_cancel` (callback_handlers.py:1198-1244):
`DELETE FROM posts WHERE id = ?`, then `remove_job` on
`context.application.job_queue` — not on `scheduler_manager.scheduler`, where
`handle_schedule_time` armed the job — with any exception swallowed. -/
def handle_confirm_cancel (st : SchedulerState) (postId : Nat) : SchedulerState :=
  { st with
    posts := st.posts.filter (fun p => p.id ≠ postId)
    queueJobs := st.queueJobs.filter (fun j => j.jobId ≠ postId) }

/-- The scheduling authority fires `send_post_job` for job `jobId` at time
`t` exactly when the job is still armed on `scheduler_manager.scheduler` and
its `run_date` has arrived. -/
def dispatchesAt (st : SchedulerState) (jobId : Nat) (t : Int) : Bool :=
  st.schedJobs.any (fun j => j.jobId = jobId && j.runDate ≤ t)

/-! ## Trigger firing

`send_post_job` (callback_handlers.py:1024-1046) is the wrapper executed when
an armed trigger fires.  It runs `send_scheduled_file` on a private event
loop inside `try`, and the `except` branch only logs the error — nothing is
written to the `posts` table (its schema has no state column and the sources
contain no `UPDATE posts`), and no job is re-armed. -/

/-- A `posts` row as seen by the firing path and the listing: the schema
carries no state column. -/
structure PostRec where
  id : Nat
  scheduledTime : Int
deriving DecidableEq, Repr

inductive DispatchOutcome
  | ok
  | raises (msg : String)
deriving DecidableEq, Repr

/-- Embedding of `send_post_job`: the dispatch outcome is an oracle; an
exception is caught and turned into a log line carrying the post id and the
exception text.  Returned: the `posts` table after the wrapper ran, the jobs
the wrapper armed (always none — no rescheduling), and the log line. -/
def send_post_job (posts : List PostRec) (postId : Nat) (outcome : DispatchOutcome) :
    List PostRec × List ArmedJob × Option String :=
  match outcome with
  | .ok => (posts, [], none)
  | .raises m => (posts, [], some ("Erreur dans le job " ++ toString postId ++ ": " ++ m))

/-- Embedding of the operator-facing listing in `planifier_post`
(callback_handlers.py:1827-1833): `WHERE p.scheduled_time > datetime(now)` (SQLite now, UTC)
— only rows with a strictly future trigger time are shown. -/
def planifier_post_listing (posts : List PostRec) (now : Int) : List PostRec :=
  posts.filter (fun p => now < p.scheduledTime)

/-! ## Backend fallback for content re-fetching

`process_thumbnail_and_upload` (callback_handlers.py:3182-3228) and the
video branch of `handle_post_content` (message_handlers.py:583-630) retrieve
the original bytes: the Bot API (`context.bot.get_file`) is tried first,
unconditionally; only when that attempt raises a size or file-reference
error does the code ask `client_manager.get_best_client` for an advanced
client (Pyrogram or Telethon) and retry there. -/

inductive Backend
  | botApi
  | pyrogram
  | telethon
deriving DecidableEq, Repr

/-- Trace of one retrieval: backends attempted in order, and the backend
that finally served the bytes (`none` when retrieval failed). -/
structure FetchResult where
  attempts : List Backend
  servedBy : Option Backend
deriving DecidableEq, Repr

/-- Embedding of the try/except fallback: the primary (Bot API) is attempted
first for any size; a payload over the declared limit of the primary makes that
attempt raise `File is too big`, after which the advanced client selected
by the registry (an oracle: `none` when no advanced client is available) is
attempted. -/
def fetchOriginalFile (size primaryLimit : Nat) (adv : Option Backend) : FetchResult :=
  if size ≤ primaryLimit then
    ⟨[.botApi], some .botApi⟩
  else
    match adv with
    | some c => ⟨[.botApi, c], some c⟩
    | none => ⟨[.botApi], none⟩

/-! ## Thumbnail substitution pipeline -/

inductive PostKind
  | text
  | photo
  | video
  | document
deriving DecidableEq, Repr

/-- A post held in `context.user_data["posts"]`. -/
structure Post where
  kind : PostKind
  content : String
  hasCustomThumbnail : Bool
  originalFileId : Option String
deriving DecidableEq, Repr

/-- Result dictionary of `send_file_smart`. -/
structure UploadResult where
  ok : Bool
  fileId : Option String
deriving DecidableEq, Repr

/-- The swap performed on upload success (callback_handlers.py:3332-3334):
`post["content"] = new_file_id`, `post["has_custom_thumbnail"] = True`,
`post["original_file_id"] = content`. -/
def applyThumbSwap (p : Post) (fid : String) : Post :=
  { p with content := fid, hasCustomThumbnail := true, originalFileId := some p.content }

/-- Embedding of `process_thumbnail_and_upload`
(callback_handlers.py:3012-3470).  Oracles: `channelKnown` for the channel
lookup, `thumb` for `db_manager.get_thumbnail`, `fetched` for the original
file retrieval (local file or download, `none` on any failure), `upload` for
`send_file_smart`.  Returns the post list after the call and the boolean the
function returns; every failure branch returns `False` before the swap. -/
def process_thumbnail_and_upload (posts : List Post) (idx : Nat)
    (channelKnown : Bool) (thumb : Option String) (fetched : Option String)
    (upload : UploadResult) : List Post × Bool :=
  match posts[idx]? with
  | none => (posts, false)
  | some p =>
    if p.content = "" then (posts, false)
    else if !channelKnown then (posts, false)
    else if thumb.isNone then (posts, false)
    else
      match fetched with
      | none => (posts, false)
      | some _ =>
        if upload.ok then
          match upload.fileId with
          | some fid => (posts.set idx (applyThumbSwap p fid), true)
          | none => (posts, false)
        else (posts, false)

/-! ## Thumbnail normalization

`optimize_thumbnail` (thumb_utils.py:12-66): save at the configured quality;
while the saved size exceeds `max_thumb_size` and the quality is above 5,
drop the quality by 5 and save again; then return the output path.  The
encoded size at each quality is an oracle `sizeAt`. -/

/-- The quality-descent loop (`while size > cap and quality > 5`), with fuel
for termination; the initial quality is enough fuel. -/
def optimizeLoop (sizeAt : Nat → Nat) (cap : Nat) : Nat → Nat → Nat
  | 0, q => q
  | fuel + 1, q => if cap < sizeAt q ∧ 5 < q then optimizeLoop sizeAt cap fuel (q - 5) else q

/-- Embedding of `optimize_thumbnail`: `decodeOk` is false when PIL raises
(the `except` branch removes the partial output and returns `None`); on the
normal path the function always returns the path of the last save — the size
of which is `sizeAt` at the final quality of the descent from `q0`. -/
def optimize_thumbnail (decodeOk : Bool) (sizeAt : Nat → Nat) (cap q0 : Nat) : Option Nat :=
  if decodeOk then some (sizeAt (optimizeLoop sizeAt cap q0 q0)) else none

/-! ## Temporary-file lifecycle of `prepare_thumbnail`

`prepare_thumbnail` (thumb_utils.py:68-98) downloads the thumbnail to a
fresh temp path, optimizes it, removes the download, and returns the
optimized path.  The call-scoped filesystem effect is tracked as the list of
temp files still existing when the call returns (the returned optimized file
is the hand-off and is listed too). -/

inductive DownloadOutcome
  | raisesClean
  | raisesAfterCreate
  | returnsNone
  | success
deriving DecidableEq, Repr

structure PrepResult where
  files : List String
  ret : Option String
deriving DecidableEq, Repr

def tempDownloadName : String := "thumb_download.jpg"

def optimizedName : String := "thumb_temp.jpg"

/-- Embedding of `prepare_thumbnail`.  `dl` tells how `client.download_media`
behaved: raised before creating the file, raised after materializing it,
returned `None`, or succeeded; `optimizeOk` tells whether
`optimize_thumbnail` produced an output (on its own failure it deletes its
partial output).  The `except` branch of the source returns `None` without
touching the filesystem. -/
def prepare_thumbnail (dl : DownloadOutcome) (optimizeOk : Bool) : PrepResult :=
  match dl with
  | .raisesClean => ⟨[], none⟩
  | .raisesAfterCreate => ⟨[tempDownloadName], none⟩
  | .returnsNone => ⟨[], none⟩
  | .success =>
    if optimizeOk then ⟨[optimizedName], some optimizedName⟩
    else ⟨[], none⟩

/-! ## Temporary-file lifecycle of the `process_thumbnail_and_upload`
download stage

The download stage (callback_handlers.py:3182-3257) registers a downloaded
file in `temp_files` only after validating it (3191, 3227); the validation
itself raises (3188-3189, 3224-3225) when the download materialized a
missing or zero-byte file, and the download call can also raise after
materializing a partial file — in every such case the file exists on disk
but was never registered.  The `finally` block (3461-3470) runs on every
exit path — success, every `return False` and any exception — and removes
exactly the registered files, so what persists after the call is the
materialized-but-unregistered files, whichever exit is taken. -/

def botApiDownloadName : String := "dl_botapi.tmp"

def advDownloadName : String := "dl_adv.tmp"

def localMediaName : String := "local_media"

/-- Behavior of the Bot API attempt (`context.bot.get_file` +
`download_to_drive`, 3185-3191): a valid file (registered), a materialized
missing or zero-byte file (validation raises before registration), or a
raise from the call itself — carrying a size or file-reference message
(then the advanced fallback runs) or any other message (then the handler
returns `False`) — having materialized a partial file or not. -/
inductive BotApiDl
  | okValid
  | invalidFile
  | raisesSizeOrRef (created : Bool)
  | raisesOther (created : Bool)
deriving DecidableEq, Repr

/-- Behavior of the advanced-client fallback (3202-3228): no usable client,
a valid file (registered), a materialized invalid file (validation raises
before registration), or a raise after materializing a partial file. -/
inductive AdvDl
  | noClient
  | okValid
  | invalidFile
  | raisesAfterCreate
deriving DecidableEq, Repr

/-- Filesystem outcome of the download stage: the files materialized but
never registered in `temp_files`, the files registered in `temp_files`,
and the `file_path` available to the rest of the pipeline (`none` when the
stage returned `False`). -/
structure DownloadStage where
  leaked : List String
  registered : List String
  fetched : Option String
deriving DecidableEq, Repr

/-- Embedding of the download stage of `process_thumbnail_and_upload`
(3111-3257).  A post with a validated `local_path` skips every download
(the local file is permanent, deliberately never registered); otherwise the
Bot API is attempted and the advanced fallback runs only when the caught
message matches a size or file-reference error — the fixed message of the
invalid-file validation raise does not match it, so that raise lands in the
unknown-error branch and returns `False`. -/
def process_thumbnail_download (hasLocal : Bool) (bot : BotApiDl) (adv : AdvDl) :
    DownloadStage :=
  if hasLocal then ⟨[], [], some localMediaName⟩
  else
    match bot with
    | .okValid => ⟨[], [botApiDownloadName], some botApiDownloadName⟩
    | .invalidFile => ⟨[botApiDownloadName], [], none⟩
    | .raisesOther created =>
        ⟨if created then [botApiDownloadName] else [], [], none⟩
    | .raisesSizeOrRef created =>
      match adv with
      | .noClient => ⟨if created then [botApiDownloadName] else [], [], none⟩
      | .okValid =>
          ⟨if created then [botApiDownloadName] else [],
            [advDownloadName], some advDownloadName⟩
      | .invalidFile =>
          ⟨(if created then [botApiDownloadName] else []) ++ [advDownloadName], [], none⟩
      | .raisesAfterCreate =>
          ⟨(if created then [botApiDownloadName] else []) ++ [advDownloadName], [], none⟩

/-- The `finally` block (3461-3470): of the files on disk, exactly those
registered in `temp_files` are removed; it runs on every exit path. -/
def process_thumbnail_finally (onDisk registered : List String) : List String :=
  onDisk.filter (fun f => !registered.contains f)

/-- Temporary files persisting after `process_thumbnail_and_upload`
returns, on whichever exit path: everything the download stage materialized
minus what the `finally` block removed. -/
def process_thumbnail_files_after (d : DownloadStage) : List String :=
  process_thumbnail_finally (d.leaked ++ d.registered) d.registered

/-! ## Immediate send and auto-destruction -/

/-- A deletion timer created by `schedule_auto_destruction`
(callback_handlers.py:96-138): target chat and message, and the absolute
fire time of the `run_once(when=timedelta(seconds=duration))` call. -/
structure DestructJob where
  chatId : Int
  messageId : Nat
  fireAt : Int
deriving DecidableEq, Repr

/-- Embedding of `schedule_auto_destruction`: when the application exposes a
job queue, one `run_once` deletion job is registered for `now + duration`;
otherwise (or when registration raises) the function returns `False` and no
job exists. -/
def schedule_auto_destruction (hasJobQueue : Bool) (now chatId : Int)
    (messageId : Nat) (durSec : Int) : Bool × List DestructJob :=
  if hasJobQueue then (true, [⟨chatId, messageId, now + durSec⟩])
  else (false, [])

/-- Outcome of sending one post in `send_post_now`. -/
structure SendOutcome where
  delivered : Bool
  destructJobs : List DestructJob
deriving DecidableEq, Repr

/-- Embedding of one iteration of the send loop of `send_post_now`
(callback_handlers.py:2421-2451, 2518-2547, 2553-2566): `sendResult` is the
message id of `sent_message` (`none` when the transport raised, which the
code catches and `continue`s); only after a successful send, and only when
`auto_destruction_time` is set and strictly positive, is
`schedule_auto_destruction` invoked — its own failure leaves the delivery
outcome untouched. -/
def send_post_now_step (sendResult : Option Nat) (autoDestruct : Option Int)
    (hasJobQueue : Bool) (deliveryTime chatId : Int) : SendOutcome :=
  match sendResult with
  | none => ⟨false, []⟩
  | some msgId =>
    let dur := autoDestruct.getD 0
    if 0 < dur then
      ⟨true, (schedule_auto_destruction hasJobQueue deliveryTime chatId msgId dur).2⟩
    else ⟨true, []⟩

/-! ## Content intake

`handle_post_content` (message_handlers.py:476-734): reject when no channel
is selected; reject when the session already holds 24 posts; otherwise build
one post from the incoming message — with download-failure branches for
photos and videos that return without appending — and append it. -/

inductive Incoming
  | text (s : String)
  | photo (fileId : String) (dlOk : Bool)
  | video (fileId : String) (dlOk : Bool) (nonEmpty : Bool)
  | document (fileId : String)
  | unsupported
deriving DecidableEq, Repr

/-- Embedding of `handle_post_content`: the resulting
`context.user_data["posts"]` list. -/
def handle_post_content (posts : List Post) (channelSelected : Bool)
    (inc : Incoming) : List Post :=
  match channelSelected with
  | false => posts
  | true =>
    if 24 ≤ posts.length then posts
    else
    match inc with
    | .text s => posts ++ [⟨.text, s, false, none⟩]
    | .photo fid dlOk => if dlOk then posts ++ [⟨.photo, fid, false, none⟩] else posts
    | .video fid dlOk nonEmpty =>
        if dlOk && nonEmpty then posts ++ [⟨.video, fid, false, none⟩] else posts
    | .document fid => posts ++ [⟨.document, fid, false, none⟩]
    | .unsupported => posts

/-! ## Helper lemmas -/

/-- With at least as much fuel as the starting quality, the descent of
`optimizeLoop` stops only when the saved size is under the cap or the
quality floor has been reached. -/
theorem optimizeLoop_exit (sizeAt : Nat → Nat) (cap : Nat) :
    ∀ fuel q, q ≤ fuel →
      sizeAt (optimizeLoop sizeAt cap fuel q) ≤ cap ∨ optimizeLoop sizeAt cap fuel q ≤ 5 := by
  intro fuel
  induction fuel with
  | zero =>
    intro q hq
    right
    simp only [optimizeLoop]
    omega
  | succ n ih =>
    intro q hq
    rw [optimizeLoop]
    split
    next h => exact ih (q - 5) (by omega)
    next h =>
      rw [not_and_or] at h
      rcases h with h | h
      · left; omega
      · right; omega

/-! ## Claim theorems -/

/-- Claim C1 at a failing input.  Scheduling 14:30 today in a zone at UTC
offset +60 minutes with the clock at UTC minute 600 succeeds and persists
`scheduled_time = 870` — the local wall-clock value itself, which is not the
UTC normalization of the local input (`toUTC ⟨60⟩ 870 = 810 ≠ 870`) — and the
read-back in `planifier_post`, which reinterprets the stored value as UTC
and converts it to the zone of the user, displays minute 930 instead of
recovering the original wall-clock value 870. -/
theorem c1_stored_trigger_time_is_local_not_utc :
    (handle_schedule_time ⟨[], [], [], 0⟩ 1 3 14 30 .today ⟨60⟩ 600).1.posts =
      [⟨0, 3, 870⟩] ∧
    toUTC ⟨60⟩ 870 ≠ 870 ∧
    planifier_post_display ⟨60⟩ 870 ≠ 870 := by
  decide

/-- Claim C2 at a failing input.  Schedule one post (job 0 armed on
`scheduler_manager.scheduler` for local minute 870), then run
`handle_confirm_cancel` on it: the persisted record is removed, but the
armed trigger survives — cancel removed the job id from
`context.application.job_queue`, a different scheduler — so when minute 870
arrives the scheduling authority still fires the job and dispatch occurs. -/
theorem c2_cancel_leaves_trigger_armed :
    (handle_confirm_cancel
        (handle_schedule_time ⟨[], [], [], 0⟩ 1 3 14 30 .today ⟨60⟩ 600).1 0).posts = [] ∧
    (handle_confirm_cancel
        (handle_schedule_time ⟨[], [], [], 0⟩ 1 3 14 30 .today ⟨60⟩ 600).1 0).schedJobs =
      [⟨0, 870⟩] ∧
    dispatchesAt
      (handle_confirm_cancel
        (handle_schedule_time ⟨[], [], [], 0⟩ 1 3 14 30 .today ⟨60⟩ 600).1 0) 0 870 = true := by
  decide

/-- Claim C3 counterexample: retrieving a payload of size 100 against a
primary limit of 50 with an advanced client available attempts the primary
backend first — the dispatcher does not go straight to the fallback, so the
claim that the primary is never attempted is false. -/
theorem c3_counterexample_primary_is_attempted :
    Backend.botApi ∈ (fetchOriginalFile 100 50 (some .pyrogram)).attempts ∧
    (fetchOriginalFile 100 50 (some .pyrogram)).attempts.head? = some .botApi := by
  decide

/-- Claim C3 as amended: for a payload over the primary limit, the primary
is attempted exactly once (first), the code then falls back to the advanced
client selected by the registry without retrying the primary, and the
retrieval is served by that fallback (failing when none is available). -/
theorem c3_oversize_falls_back_after_one_primary_attempt
    (size primaryLimit : Nat) (adv : Option Backend) (h : primaryLimit < size) :
    (fetchOriginalFile size primaryLimit adv).attempts = .botApi :: adv.toList ∧
    (fetchOriginalFile size primaryLimit adv).servedBy = adv := by
  unfold fetchOriginalFile
  rw [if_neg (by omega)]
  cases adv <;> simp

/-- Witness for the amended C3 theorem at size 100, limit 50, Telethon
fallback. -/
theorem c3_oversize_falls_back_witness :
    50 < 100 ∧
    (fetchOriginalFile 100 50 (some .telethon)).attempts =
      .botApi :: (some Backend.telethon).toList ∧
    (fetchOriginalFile 100 50 (some .telethon)).servedBy = some .telethon := by
  have h := c3_oversize_falls_back_after_one_primary_attempt 100 50 (some .telethon)
    (by decide)
  exact ⟨by decide, h.1, h.2⟩

/-- Claim C4: thumbnail substitution is atomic.  Every run of
`process_thumbnail_and_upload` either leaves the post list completely
unchanged and reports failure, or — only when the re-upload succeeded with a
fresh file id — replaces the post at the requested index by one whose
content reference and `has_custom_thumbnail` flag are updated together; a
state with the flag set but the reference unmodified is not reachable. -/
theorem c4_thumbnail_substitution_atomic (posts : List Post) (idx : Nat)
    (channelKnown : Bool) (thumb : Option String) (fetched : Option String)
    (upload : UploadResult) :
    process_thumbnail_and_upload posts idx channelKnown thumb fetched upload =
        (posts, false) ∨
    ∃ p fid, posts[idx]? = some p ∧ upload.ok = true ∧ upload.fileId = some fid ∧
      process_thumbnail_and_upload posts idx channelKnown thumb fetched upload =
        (posts.set idx (applyThumbSwap p fid), true) := by
  unfold process_thumbnail_and_upload
  cases hp : posts[idx]? with
  | none => exact Or.inl rfl
  | some p =>
    dsimp only
    split
    · exact Or.inl rfl
    split
    · exact Or.inl rfl
    split
    · exact Or.inl rfl
    cases hf : fetched with
    | none => exact Or.inl rfl
    | some f =>
      dsimp only
      split
      next hok =>
        cases hfid : upload.fileId with
        | none => exact Or.inl rfl
        | some fid => exact Or.inr ⟨p, fid, rfl, hok, rfl, rfl⟩
      next => exact Or.inl rfl

/-- Claim C5: a schedule request whose resulting local target is not
strictly in the future is rejected with the past-time error and the state is
returned untouched — no row is inserted into the `posts` table and no
trigger is armed on any scheduler. -/
theorem c5_past_time_creates_nothing (st : SchedulerState)
    (pendingCount channelId hour minute : Nat) (day : ScheduleDay)
    (tz : Timezone) (nowUTC : Int) (hh : hour ≤ 23) (hm : minute ≤ 59)
    (hpast : targetDateLocal (toLocal tz nowUTC) hour minute day ≤ toLocal tz nowUTC) :
    handle_schedule_time st pendingCount channelId hour minute day tz nowUTC =
      (st, some .pastTime) := by
  unfold handle_schedule_time
  rw [if_pos (⟨hh, hm⟩ : hour ≤ 23 ∧ minute ≤ 59), if_pos hpast]

/-- Witness for the C5 theorem: 14:30 today with the local clock exactly at
14:30 is rejected and the empty state is unchanged. -/
theorem c5_past_time_creates_nothing_witness :
    14 ≤ 23 ∧ 30 ≤ 59 ∧
    targetDateLocal (toLocal ⟨0⟩ 870) 14 30 .today ≤ toLocal ⟨0⟩ 870 ∧
    handle_schedule_time ⟨[], [], [], 0⟩ 2 3 14 30 .today ⟨0⟩ 870 =
      (⟨[], [], [], 0⟩, some .pastTime) := by
  exact ⟨by decide, by decide, by decide,
    c5_past_time_creates_nothing ⟨[], [], [], 0⟩ 2 3 14 30 .today ⟨0⟩ 870
      (by decide) (by decide) (by decide)⟩

/-- Claim C6 counterexample: an image whose encoding exceeds the 204800-byte
cap at every quality makes `optimize_thumbnail` walk the quality descent to
the floor and then return the over-cap result as a success — it does not
fail with an error result as the claim states. -/
theorem c6_counterexample_over_cap_returned :
    optimize_thumbnail true (fun _ => 300000) 204800 80 = some 300000 ∧
    204800 < 300000 := by
  constructor
  · rfl
  · decide

/-- Claim C6 as amended: quality is reduced in fixed steps until the result
is under the cap or the quality floor is reached, and the final save is
always returned as a success — even when it still exceeds the cap; an error
result arises only when image processing itself raises, never because of
the size cap. -/
theorem c6_descends_to_cap_or_floor (decodeOk : Bool) (sizeAt : Nat → Nat)
    (cap q0 : Nat) :
    (optimize_thumbnail decodeOk sizeAt cap q0 = none ↔ decodeOk = false) ∧
    optimize_thumbnail true sizeAt cap q0 =
      some (sizeAt (optimizeLoop sizeAt cap q0 q0)) ∧
    (sizeAt (optimizeLoop sizeAt cap q0 q0) ≤ cap ∨ optimizeLoop sizeAt cap q0 q0 ≤ 5) := by
  refine ⟨?_, rfl, optimizeLoop_exit sizeAt cap q0 q0 le_rfl⟩
  cases decodeOk <;> simp [optimize_thumbnail]

/-- Claim C7 counterexample: a pending post with trigger minute 100 whose
dispatch raises leaves the durable store bit-for-bit identical to its
pending form — no Failed state is recorded anywhere in it — and once the
trigger time has passed the operator-facing listing shows the failed job
exactly as it shows a delivered one (empty), so the listing cannot
distinguish a job that ran and broke from one that ran and succeeded. -/
theorem c7_counterexample_no_failed_state_recorded :
    (send_post_job [⟨1, 100⟩] 1 (.raises "Chat not found")).1 = [⟨1, 100⟩] ∧
    planifier_post_listing (send_post_job [⟨1, 100⟩] 1 (.raises "Chat not found")).1 101 =
      planifier_post_listing [] 101 := by
  constructor
  · rfl
  · rfl

/-- Claim C7 as amended: an exception during dispatch is caught and logged
with the post id and the exception text, the job is not rescheduled, and the
wrapper deletes nothing from the store — but the store after the failure is
exactly the store of a job that never ran, and the future-filtered listing
it feeds is unchanged by the firing. -/
theorem c7_exception_caught_logged_only (posts : List PostRec) (postId : Nat)
    (m : String) :
    send_post_job posts postId (.raises m) =
      (posts, [], some ("Erreur dans le job " ++ toString postId ++ ": " ++ m)) ∧
    (∀ t : Int, planifier_post_listing (send_post_job posts postId (.raises m)).1 t =
      planifier_post_listing posts t) ∧
    (send_post_job posts postId (.raises m)).2.1 = [] := by
  exact ⟨rfl, fun _ => rfl, rfl⟩

/-- Claim C8: a successful send with a strictly positive auto-destruct
duration creates exactly one destruct job, targeting the returned message
id and firing at delivery time plus the duration; a zero or absent duration
creates none; and the delivery outcome is success regardless of whether the
destruct job could be registered. -/
theorem c8_auto_destruct_one_job (msgId : Nat) (chatId t d : Int)
    (dur : Option Int) (hasJobQueue : Bool) :
    (send_post_now_step (some msgId) dur hasJobQueue t chatId).delivered = true ∧
    (dur = some d → 0 < d →
      (send_post_now_step (some msgId) dur true t chatId).destructJobs =
        [⟨chatId, msgId, t + d⟩]) ∧
    ((dur = none ∨ dur = some 0) →
      (send_post_now_step (some msgId) dur hasJobQueue t chatId).destructJobs = []) := by
  refine ⟨?_, ?_, ?_⟩
  · unfold send_post_now_step
    dsimp only
    split <;> rfl
  · rintro rfl hd
    unfold send_post_now_step schedule_auto_destruction
    simp [Option.getD, hd]
  · rintro (rfl | rfl) <;> simp [send_post_now_step]

/-- Witness for the C8 theorem: duration 300 on a successful delivery of
message 7 at time 1000 creates exactly the one destruct job firing at 1300,
and with no job queue available the delivery still succeeds. -/
theorem c8_auto_destruct_one_job_witness :
    (send_post_now_step (some 7) (some 300) false 1000 5).delivered = true ∧
    (send_post_now_step (some 7) (some 300) true 1000 5).destructJobs =
      [⟨5, 7, 1300⟩] := by
  have h := c8_auto_destruct_one_job 7 5 1000 300 (some 300) false
  refine ⟨h.1, ?_⟩
  have h2 := h.2.1 rfl (by decide)
  simpa using h2

/-- Claim C9 counterexample: three error returns leave behind a temporary
file the call created.  In `prepare_thumbnail`, a download raising after
materializing its file reaches the except branch, which removes nothing.
In `process_thumbnail_and_upload`, a Bot API download materializing a
zero-byte file makes the validation raise before the `temp_files`
registration, the fixed message of that raise misses the size or
file-reference test, and the unknown-error branch returns `False` with the
file on disk — the `finally` block removes only registered files; the same
happens when the advanced fallback materializes an invalid file after a
size error. -/
theorem c9_counterexample_temp_file_leaks :
    ((prepare_thumbnail .raisesAfterCreate true).ret = none ∧
      (prepare_thumbnail .raisesAfterCreate true).files = [tempDownloadName]) ∧
    ((process_thumbnail_download false .invalidFile .noClient).fetched = none ∧
      process_thumbnail_files_after (process_thumbnail_download false .invalidFile .noClient) =
        [botApiDownloadName]) ∧
    ((process_thumbnail_download false (.raisesSizeOrRef false) .invalidFile).fetched = none ∧
      process_thumbnail_files_after
          (process_thumbnail_download false (.raisesSizeOrRef false) .invalidFile) =
        [advDownloadName]) := by
  decide

/-- Claim C9 as amended: removal on every exit path holds exactly for the
files a call registered for cleanup.  In `process_thumbnail_and_upload`
every file registered in `temp_files` is removed on every exit path by the
`finally` block, and what persists after the call is precisely the files a
download step materialized without reaching the registration (an invalid
download whose validation raises before the append, or a download call
raising after materializing a file).  In `prepare_thumbnail`, on every run
whose download does not raise after creating its file, an error return
leaves no temporary file and a successful return leaves exactly the
optimized file handed off to the caller. -/
theorem c9_registered_cleanup_unregistered_leak (hasLocal : Bool)
    (bot : BotApiDl) (adv : AdvDl) (dl : DownloadOutcome) (optimizeOk : Bool)
    (hdl : dl ≠ .raisesAfterCreate) :
    (∀ f ∈ process_thumbnail_files_after (process_thumbnail_download hasLocal bot adv),
      f ∉ (process_thumbnail_download hasLocal bot adv).registered) ∧
    process_thumbnail_files_after (process_thumbnail_download hasLocal bot adv) =
      (process_thumbnail_download hasLocal bot adv).leaked ∧
    ((prepare_thumbnail dl optimizeOk).ret = none →
      (prepare_thumbnail dl optimizeOk).files = []) ∧
    ((prepare_thumbnail dl optimizeOk).ret.isSome →
      (prepare_thumbnail dl optimizeOk).files = [optimizedName]) := by
  refine ⟨?_, ?_, ?_, ?_⟩
  · rcases bot with _ | _ | c | c <;> rcases adv <;> rcases hasLocal <;>
      (try rcases c) <;> decide
  · rcases bot with _ | _ | c | c <;> rcases adv <;> rcases hasLocal <;>
      (try rcases c) <;> decide
  · cases dl <;> cases optimizeOk <;> simp_all [prepare_thumbnail]
  · cases dl <;> cases optimizeOk <;> simp_all [prepare_thumbnail]

/-- Witness for the amended C9 theorem: a registered valid Bot API download
is removed by the `finally` block so nothing persists, and a successful
download followed by a failing optimization in `prepare_thumbnail` returns
the error result with no temporary file left. -/
theorem c9_registered_cleanup_unregistered_leak_witness :
    DownloadOutcome.success ≠ DownloadOutcome.raisesAfterCreate ∧
    process_thumbnail_files_after (process_thumbnail_download false .okValid .noClient) =
      (process_thumbnail_download false .okValid .noClient).leaked ∧
    (prepare_thumbnail .success false).files = [] := by
  have h := c9_registered_cleanup_unregistered_leak false .okValid .noClient
    .success false (by decide)
  exact ⟨by decide, h.2.1, h.2.2.1 rfl⟩

/-- Every intake call either leaves the session list unchanged, or finds it
strictly below the 24-post bound and appends exactly one post. -/
theorem handle_post_content_cases (posts : List Post) (channelSelected : Bool)
    (inc : Incoming) :
    handle_post_content posts channelSelected inc = posts ∨
    (posts.length < 24 ∧
      ∃ p, handle_post_content posts channelSelected inc = posts ++ [p]) := by
  cases channelSelected with
  | false => exact Or.inl rfl
  | true =>
    by_cases hlen : 24 ≤ posts.length
    · left
      simp [handle_post_content, hlen]
    · cases inc with
      | text s =>
        exact Or.inr ⟨by omega, ⟨.text, s, false, none⟩,
          by simp [handle_post_content, hlen]⟩
      | photo fid dlOk =>
        cases dlOk
        · left; simp [handle_post_content, hlen]
        · exact Or.inr ⟨by omega, ⟨.photo, fid, false, none⟩,
            by simp [handle_post_content, hlen]⟩
      | video fid dlOk nonEmpty =>
        cases dlOk <;> cases nonEmpty
        · left; simp [handle_post_content, hlen]
        · left; simp [handle_post_content, hlen]
        · left; simp [handle_post_content, hlen]
        · exact Or.inr ⟨by omega, ⟨.video, fid, false, none⟩,
            by simp [handle_post_content, hlen]⟩
      | document fid =>
        exact Or.inr ⟨by omega, ⟨.document, fid, false, none⟩,
          by simp [handle_post_content, hlen]⟩
      | unsupported => left; simp [handle_post_content, hlen]

/-- Claim C10: the pending post list never exceeds 24 entries — an intake
call finding 24 or more posts rejects the content and leaves the list
unchanged, any call appends at most one post, and a list within the bound
stays within the bound. -/
theorem c10_pending_posts_capped (posts : List Post) (channelSelected : Bool)
    (inc : Incoming) :
    (24 ≤ posts.length → handle_post_content posts channelSelected inc = posts) ∧
    (handle_post_content posts channelSelected inc).length ≤ posts.length + 1 ∧
    (posts.length ≤ 24 → (handle_post_content posts channelSelected inc).length ≤ 24) := by
  rcases handle_post_content_cases posts channelSelected inc with h | ⟨hlt, p, hp⟩
  · rw [h]
    exact ⟨fun _ => rfl, by omega, fun hle => hle⟩
  · rw [hp]
    simp only [List.length_append, List.length_cons, List.length_nil]
    exact ⟨fun hge => absurd hge (by omega), by omega, fun _ => by omega⟩

/-- Witness for the C10 theorem: a session already holding 24 posts rejects
a new document unchanged, and intake into an empty session stays within the
bound. -/
theorem c10_pending_posts_capped_witness :
    24 ≤ (List.replicate 24 (⟨.text, "x", false, none⟩ : Post)).length ∧
    handle_post_content (List.replicate 24 ⟨.text, "x", false, none⟩) true
        (.document "d") = List.replicate 24 ⟨.text, "x", false, none⟩ ∧
    (handle_post_content [] true (.document "d")).length ≤ 24 := by
  have h := c10_pending_posts_capped (List.replicate 24 ⟨.text, "x", false, none⟩)
    true (.document "d")
  have h2 := c10_pending_posts_capped ([] : List Post) true (.document "d")
  exact ⟨by decide, h.1 (by decide), h2.2.2 (by decide)⟩

end UploaderBot
